import Mathlib

/-!
Shallow embedding of `src/super_hydro/clients/notebook.py` (the notebook
client of super-hydro), restricted to the frame-pacing / server-
synchronization loop, the control-event handlers and the shutdown path.

Conventions of the embedding:
* Python floats are modelled as `ℚ` (the timing arithmetic of the file is
  plain field arithmetic, no rounding is relevant to any property below).
* A raised Python exception is an `Option PyError` result (`none` means the
  call completed normally).
* The server connection (`self.server`) is modelled by recording the list of
  calls issued to it (`ServerCall`); responses of `get_array` are supplied as
  explicit arguments.
* `time.perf_counter` readings are supplied by an explicit clock
  `clock : Nat → ℚ`, consumed one reading per call, in program order.
-/

/-- Error values raised by the modelled Python code: `NameError` (an unbound
name was evaluated) and `ConnectionError` (the server is unreachable). -/
inductive PyError
  | nameError (n : String)
  | connectionError
deriving DecidableEq

/-- Calls issued to the Server Proxy (`self.server`): `get`, `get_array`,
`set`, `do` (source: communication contract used by notebook.py). -/
inductive ServerCall
  | get (keys : List String)
  | getArray (n : String)
  | set (kv : List (String × ℚ))
  | doCmd (cmd : String)
deriving DecidableEq

/-- RunState of the spec: `Running | Stopped`; in the source this is the
boolean attribute `self._running` of `App`. -/
inductive RunState
  | Running
  | Stopped
deriving DecidableEq

/-- Density frames fetched from the server (an uninterpreted 2-D numeric array). -/
abbrev DensityFrame := List (List ℚ)

/-- Rendered images produced by the external color map
`get_rgba_from_density` (from `ClientDensityMixin`, an external
collaborator); the pixel contents are left uninterpreted in this development. -/
abbrev Image := List (List ℚ)

/-- Mutable state of a `NotebookApp` instance that the verified claims touch:
`_running`, `_mouse_down`, the finger-control widget values, the class-level
`_xy` list, the truthiness and frame counter of `self._fps`, the density
widget's pixel buffer and dimensions, and the message label. -/
structure NotebookState where
  running : Bool                -- self._running
  mouseDown : Bool              -- self._mouse_down
  fingerX : ℚ                   -- self._w_finger_x.value
  fingerY : ℚ                   -- self._w_finger_y.value
  xy : List (ℚ × ℚ)             -- NotebookApp._xy
  fpsActive : Bool              -- bool(self._fps): False when self._fps is None
  fpsFrame : Nat                -- self._fps.frame
  rgba : Option Image           -- self._w_density.rgba
  msg : String                  -- self._w_msg.value
  densityWidth : ℚ              -- self._w_density.width
  densityHeight : ℚ             -- self._w_density.height
deriving DecidableEq

/-- RunState of a client state: `Stopped` exactly when `self._running` is
false (the spec's `Running → Stopped` transition is `self._running = False`). -/
def runState (s : NotebookState) : RunState :=
  if s.running then RunState.Running else RunState.Stopped

/-- A convenient initial client state: running, pointer up, finger controls
at zero, no frames yet, display sized 500×300 (the display size of the
spec's Scenario C). -/
def initState : NotebookState :=
  { running := true, mouseDown := false, fingerX := 0, fingerY := 0,
    xy := [], fpsActive := false, fpsFrame := 0, rgba := none, msg := "",
    densityWidth := 500, densityHeight := 300 }

/-- Result of one event handler or frame callback: the state after the call,
the server calls it issued (in order), and whether it raised. -/
structure StepResult where
  state : NotebookState
  calls : List ServerCall
  err : Option PyError
deriving DecidableEq

/-- App.interrupted returns `_Interrupted(app=self)`, and
`_Interrupted.__bool__` (source lines 77-80) is `not self.app._running`.
The body deliberately consults no other interruption source (the source
comment: checking the global interrupted flag might stop the server too
early); the embedding makes this auditable by passing any external
interrupt signal as an argument that the body does not read. -/
def interruptedBool (app : NotebookState) (_externalInterrupt : Bool) : Bool :=
  !app.running

/-- NotebookApp.on_value_change (source lines 130-133):
`if not self._running: return` then
`self.server.set({change["owner"].name: change["new"]})`. -/
def on_value_change (s : NotebookState) (ownerName : String) (newVal : ℚ) :
    List ServerCall × NotebookState :=
  if !s.running then ([], s)
  else ([ServerCall.set [(ownerName, newVal)]], s)

/-- NotebookApp.quit (source lines 179-181):
`self.server.do("quit")` then `self._running = False`. -/
def quit (s : NotebookState) : List ServerCall × NotebookState :=
  ([ServerCall.doCmd "quit"], { s with running := false })

/-- NotebookApp.on_click (source lines 135-141): `if not self._running:
return`; if the button is named `quit` invoke `self.quit()`, else forward the
button name to `self.server.do`. -/
def on_click (s : NotebookState) (buttonName : String) :
    List ServerCall × NotebookState :=
  if !s.running then ([], s)
  else if buttonName = "quit" then quit s
  else ([ServerCall.doCmd buttonName], s)

/-- Local names bound in the body of `NotebookApp._set_finger` (source lines
159-162): exactly its parameters; the method introduces no other local
binding before line 162 executes. -/
def setFingerLocals : List String := ["self", "x", "y"]

/-- Names bound at module level in `notebook.py`: the imports of lines 14-32
and the top-level definitions of the file. (`_APP` is declared `global` at
line 379 but is only assigned inside `run`, so it may or may not be bound;
it is included, which only makes name resolution succeed more often.) -/
def notebookModuleGlobals : List String :=
  ["contextmanager", "io", "time", "math", "IPython", "cm", "np",
   "ipywidgets", "nointerrupt", "NoInterrupt", "FPS", "config",
   "communication", "utils", "widgets", "ClientDensityMixin", "_LOGGER",
   "log", "log_task", "App", "_Interrupted", "NotebookApp", "_OPTS",
   "get_app", "_APP", "run"]

/-- Python builtins relevant to this file. The builtins namespace of CPython
contains no name starting with `finger`; this list is the fragment of
builtins actually referenced by `notebook.py`, which suffices because the
only names whose resolution the claims depend on are `finger_x` and
`finger_y`. -/
def pythonBuiltins : List String :=
  ["max", "min", "int", "len", "range", "print", "bool", "float", "str",
   "eval", "global", "property", "object"]

/-- Python name resolution as seen from the body of `_set_finger`: a bare
name resolves iff it is a local, a module global, or a builtin (class
attributes such as `_xy`'s neighbours are not in scope as bare names). -/
def resolvesInSetFinger (n : String) : Bool :=
  setFingerLocals.contains n || notebookModuleGlobals.contains n ||
    pythonBuiltins.contains n

/-- Assignment `self._w_finger_x.value = v` (source line 160). The finger
widgets are interactive widgets on which `get_widget` (source lines 222-223)
registered `self.on_value_change` as a `value` observer, and traitlets fire
observers only when the assigned value differs from the current one. -/
def setFingerWidgetX (s : NotebookState) (v : ℚ) :
    NotebookState × List ServerCall :=
  if s.fingerX = v then (s, [])
  else
    let s' := { s with fingerX := v }
    let (calls, s'') := on_value_change s' "finger_x" v
    (s'', calls)

/-- Assignment `self._w_finger_y.value = v` (source line 161); same observer
wiring as `setFingerWidgetX`. -/
def setFingerWidgetY (s : NotebookState) (v : ℚ) :
    NotebookState × List ServerCall :=
  if s.fingerY = v then (s, [])
  else
    let s' := { s with fingerY := v }
    let (calls, s'') := on_value_change s' "finger_y" v
    (s'', calls)

/-- NotebookApp._set_finger (source lines 159-162):
`self._w_finger_x.value = x / self._w_density.width`,
`self._w_finger_y.value = 1 - y / self._w_density.height`, then
`self._xy.append((finger_x, finger_y))`.  Evaluating the tuple on line 162
resolves the bare names `finger_x` and `finger_y`; if either is unbound in
every enclosing scope the statement raises `NameError` and the append does
not happen.  (For this module the names are unbound, so the success branch
is unreachable; since the values the unbound names would denote cannot be
derived from the source, that branch leaves `_xy` unchanged.) -/
def _set_finger (s : NotebookState) (x y : ℚ) : StepResult :=
  let vx := x / s.densityWidth
  let p1 := setFingerWidgetX s vx
  let vy := 1 - y / s.densityHeight
  let p2 := setFingerWidgetY p1.1 vy
  if resolvesInSetFinger "finger_x" && resolvesInSetFinger "finger_y" then
    { state := p2.1, calls := p1.2 ++ p2.2, err := none }
  else
    { state := p2.1, calls := p1.2 ++ p2.2,
      err := some (PyError.nameError "finger_x") }

/-- NotebookApp._handle_mouse_down (source lines 147-149):
`self._mouse_down = True` then `self._set_finger(x, y)`. -/
def _handle_mouse_down (s : NotebookState) (x y : ℚ) : StepResult :=
  _set_finger { s with mouseDown := true } x y

/-- NotebookApp._handle_mouse_move (source lines 143-145):
`if self._mouse_down: self._set_finger(x, y)`. -/
def _handle_mouse_move (s : NotebookState) (x y : ℚ) : StepResult :=
  if s.mouseDown then _set_finger s x y
  else { state := s, calls := [], err := none }

/-- NotebookApp.update_frame (source lines 164-173).  Guard: `if not
self._fps or not self._running: return`.  Otherwise, inside `with
self.sync()`: fetch the density array (`self.get_density()`, which issues
`self.server.get_array("density")`), assign the color-mapped image to
`self._w_density.rgba`, increment `self._fps.frame`, and set the message
label to `f"{self._fps}fps"`.  The external color map
`get_rgba_from_density` and the string form of the `FPS` object are passed
in as `rgbaOf` and `fpsStr`; the server's response to this call (a frame, or
a raised connection error) is passed in as `resp`.  The pacing performed by
`sync` (modelled separately below) touches none of the fields of
`NotebookState`, and on an exception it re-raises after pacing, so the
raised error propagates out of `update_frame` with the state as recorded
here. -/
def update_frame (rgbaOf : DensityFrame → Image) (fpsStr : Nat → String)
    (resp : Except PyError DensityFrame) (s : NotebookState) : StepResult :=
  if !s.fpsActive || !s.running then { state := s, calls := [], err := none }
  else
    match resp with
    | Except.error e =>
        { state := s, calls := [ServerCall.getArray "density"], err := some e }
    | Except.ok density =>
        { state :=
            { s with rgba := some (rgbaOf density),
                     fpsFrame := s.fpsFrame + 1,
                     msg := fpsStr (s.fpsFrame + 1) ++ "fps" },
          calls := [ServerCall.getArray "density"], err := none }

/-- Modelled from the spec: the Frame Rate Limiter `FPS` (defined in
`super_hydro/contexts.py`, which is not under `src/`; `notebook.py` only
imports and iterates it).  Spec 4.2: it produces a lazy finite sequence of
frame indices starting at 0, ending when `max_frames` is reached or the
timeout elapses; with unlimited timeout it therefore yields exactly the
indices `0, 1, ..., max_frames - 1`. -/
def fpsIndicesUnlimited (maxFrames : Nat) : List Nat := List.range maxFrames

/-- Result of running the self-driven frame loop: final state, number of
`update_frame` invocations the loop made, server calls issued, and the
exception (if any) that escaped the loop. -/
structure RunResult where
  state : NotebookState
  invocations : Nat
  calls : List ServerCall
  err : Option PyError
deriving DecidableEq

/-- Self-driven frame loop of NotebookApp.run (source lines 289-296):
`for frame in fps:` — `if not self._running: break`, `self.update_frame()`,
then `int(math.ceil(1 / max(1, fps.fps) / kernel._poll_interval))` calls of
`kernel.do_one_iteration()` (which touch no modelled state).  An exception
raised by `update_frame` aborts the loop and propagates.  `step k s` is the
behaviour of `self.update_frame()` on its `k`-th invocation (`k` counts the
`get_array` round-trips, so the server's response schedule can be indexed
by it); during the loop `self._fps` is the live limiter handed out by the
`with FPS(...)` scope, so its truthiness is carried in `s.fpsActive`. -/
def selfDrivenLoop (step : Nat → NotebookState → StepResult) :
    List Nat → Nat → NotebookState → RunResult
  | [], _, s => { state := s, invocations := 0, calls := [], err := none }
  | _f :: rest, k, s =>
    if s.running = false then
      { state := s, invocations := 0, calls := [], err := none }
    else
      let r := step k s
      match r.err with
      | some e =>
          { state := r.state, invocations := 1, calls := r.calls,
            err := some e }
      | none =>
          let r2 := selfDrivenLoop step rest (k + 1) r.state
          { state := r2.state, invocations := r2.invocations + 1,
            calls := r.calls ++ r2.calls, err := r2.err }

/-- NotebookApp.run, source lines 274-299, in the default self-driven mode
(`browser_control = False`) with unlimited timeout: `with FPS(frames=...,
timeout=...) as fps:` sets `self._fps = fps` (a fresh limiter, truthy) and
runs the `for frame in fps:` loop; after the `with` block, `self._fps =
None` and `if self._running: self.quit()` (quit issues `do("quit")` and
clears `_running`).  The `with` statement guarantees the limiter is released
on either exit path, but it does not catch the exception: per spec 4.2 the
limiter's scope releases resources on exit and nothing in it suppresses
errors, so when `update_frame` raises, the two statements after the `with`
block — including the `self.quit()` — are skipped and the exception
propagates out of `run`. -/
def run_self_driven (step : Nat → NotebookState → StepResult)
    (maxFrames : Nat) (s : NotebookState) : RunResult :=
  let s0 := { s with fpsActive := true }
  let r := selfDrivenLoop step (fpsIndicesUnlimited maxFrames) 0 s0
  match r.err with
  | some e =>
      { state := r.state, invocations := r.invocations, calls := r.calls,
        err := some e }
  | none =>
      let s1 := { r.state with fpsActive := false }
      if s1.running then
        { state := { s1 with running := false },
          invocations := r.invocations,
          calls := r.calls ++ [ServerCall.doCmd "quit"], err := none }
      else
        { state := s1, invocations := r.invocations, calls := r.calls,
          err := none }

/-- The behaviour of `self.update_frame()` when the server answers the
`k`-th `get_array` call with `resp k`. -/
def stepOf (rgbaOf : DensityFrame → Image) (fpsStr : Nat → String)
    (resp : Nat → Except PyError DensityFrame) :
    Nat → NotebookState → StepResult :=
  fun k s => update_frame rgbaOf fpsStr (resp k) s

/-- Server response schedule in which every `get_array` call before call
`kE` (0-based) returns a frame and call `kE` raises `e`. -/
def respErrAt (d : Nat → DensityFrame) (e : PyError) (kE : Nat) :
    Nat → Except PyError DensityFrame :=
  fun k => if k = kE then Except.error e else Except.ok (d k)

/-- Observable actions of the pacing code in `NotebookApp.sync`:
`kernel.do_one_iteration()` (one cooperative-scheduler tick handed to the
host) and `time.sleep(dt)`. -/
inductive Ev
  | doOneIteration
  | sleep (dt : ℚ)
deriving DecidableEq

/-- Deadline computed on source line 337:
`t_continue = tic + 1.0 / max(self._w_fps.value, 1)` where
`self._w_fps.value` is the user-settable TargetRate. -/
def syncDeadline (tic v : ℚ) : ℚ := tic + 1 / max v 1

/-- Poll count computed on source lines 293-295 for the self-driven loop:
`int(math.ceil(1 / max(1, fps.fps) / kernel._poll_interval))`. -/
def pollCountSelfDriven (r poll : ℚ) : ℤ := ⌈1 / max 1 r / poll⌉

/-- While loop of `sync`'s `finally` block (source lines 339-345):
`while tok < t_continue:` — `kernel.do_one_iteration()`; `tok =
time.perf_counter()`; `dt = min(kernel._poll_interval, t_continue - tok)`;
`if dt > 0: time.sleep(dt)`; `tok = time.perf_counter()`.  `clock i` is the
value returned by the `i`-th remaining `perf_counter` call; `fuel` bounds
the number of iterations the model is willing to unfold (`none` means the
bound was hit before the deadline passed).  On success it returns the events
in order and the index of the next unread clock entry. -/
def paceWhile (tc poll : ℚ) (clock : Nat → ℚ) :
    Nat → ℚ → Nat → Option (List Ev × Nat)
  | 0, _, _ => none
  | fuel + 1, tok, i =>
    if tok < tc then
      let t1 := clock i
      let dt := min poll (tc - t1)
      let evs := if 0 < dt then [Ev.doOneIteration, Ev.sleep dt]
                 else [Ev.doOneIteration]
      match paceWhile tc poll clock fuel (clock (i + 1)) (i + 2) with
      | none => none
      | some (rest, j) => some (evs ++ rest, j)
    else some ([], i)

/-- Exit actions of `NotebookApp.sync` (the `finally` block, source lines
334-345): one `kernel.do_one_iteration()`, compute the deadline of line 337,
read `tok = time.perf_counter()` (line 338), then run the pacing while-loop.
`tic` is the `perf_counter` reading taken on entry (line 331), `v` the
TargetRate `self._w_fps.value`, `poll` the host's `kernel._poll_interval`,
and `i` the index of the next unread clock entry when the block starts. -/
def syncFinally (tic v poll : ℚ) (clock : Nat → ℚ) (i fuel : Nat) :
    Option (List Ev × Nat) :=
  let tc := syncDeadline tic v
  let tok := clock i
  match paceWhile tc poll clock fuel tok (i + 1) with
  | none => none
  | some (evs, j) => some (Ev.doOneIteration :: evs, j)

/-- NotebookApp.sync (source lines 325-346): `tic = time.perf_counter()`
(clock entry 0); `try: yield` runs the wrapped body, which produces the
events `bodyEvs`, leaves the next unread clock entry at index `i`, and
either completes (`bodyErr = none`) or raises (`bodyErr = some e`); the
`finally` block then always runs, after which a raised exception continues
to propagate.  The result is the full event trace and the propagated
outcome (`none` when the whole iteration over `fuel` loop unfoldings did
not reach the deadline). -/
def sync (v poll : ℚ) (clock : Nat → ℚ) (fuel : Nat) (bodyEvs : List Ev)
    (bodyErr : Option PyError) (i : Nat) :
    Option (List Ev × Option PyError) :=
  let tic := clock 0
  match syncFinally tic v poll clock i fuel with
  | none => none
  | some (evs, _) => some (bodyEvs ++ evs, bodyErr)

/-- Shape of a trace produced by the pacing while-loop, stated directly from
source lines 339-345: from reading `tok` with next clock index `i`, either
the loop condition `tok < t_continue` fails and the trace is empty, or the
iteration contributes one scheduler tick followed by a sleep of
`min(poll, t_continue - now)` exactly when that duration is positive, and
the trace continues from the re-read clock value. -/
inductive PaceSteps (tc poll : ℚ) (clock : Nat → ℚ) :
    ℚ → Nat → List Ev → Prop
  | exit (tok : ℚ) (i : Nat) : ¬ tok < tc → PaceSteps tc poll clock tok i []
  | stepSleep (tok : ℚ) (i : Nat) (rest : List Ev) :
      tok < tc → 0 < min poll (tc - clock i) →
      PaceSteps tc poll clock (clock (i + 1)) (i + 2) rest →
      PaceSteps tc poll clock tok i
        (Ev.doOneIteration :: Ev.sleep (min poll (tc - clock i)) :: rest)
  | stepNoSleep (tok : ℚ) (i : Nat) (rest : List Ev) :
      tok < tc → ¬ 0 < min poll (tc - clock i) →
      PaceSteps tc poll clock (clock (i + 1)) (i + 2) rest →
      PaceSteps tc poll clock tok i (Ev.doOneIteration :: rest)

/-- A concrete `perf_counter` schedule used to instantiate the pacing
theorems: entry into `sync` at time 0, the exit block starting at time 0,
one mid-loop reading at 1/2, and every later reading past the deadline. -/
def qclock : Nat → ℚ :=
  fun i => if i = 0 then 0 else if i = 1 then 0 else if i = 2 then 1 / 2
    else 2

/-! Theorems.  Each claim of the specification is settled by exactly one
theorem below (plus, where required, a closed witness instance). -/

/-- C6.  The Interruption Flag (`_Interrupted.__bool__`, via
`App.interrupted`) is a zero-argument predicate returning true iff the
owning client's RunState is Stopped; it reads no external interruption
source (its value is independent of any external interrupt signal) and, as
a pure function of the client state, has no side effects. -/
theorem C6_interrupted_flag (s : NotebookState) (ext ext' : Bool) :
    (interruptedBool s ext = true ↔ runState s = RunState.Stopped) ∧
    interruptedBool s ext = interruptedBool s ext' := by
  constructor
  · unfold interruptedBool runState
    cases h : s.running <;> simp
  · rfl

/-- C7.  A value-change event arriving while RunState is Stopped is ignored
(no server call of any kind, state unchanged); otherwise the mapping from
the changed field to its new value is forwarded to Server Proxy `set`. -/
theorem C7_value_change_routing (s : NotebookState) (n : String) (v : ℚ) :
    (runState s = RunState.Stopped → on_value_change s n v = ([], s)) ∧
    (runState s = RunState.Running →
      on_value_change s n v = ([ServerCall.set [(n, v)]], s)) := by
  unfold on_value_change runState
  cases h : s.running <;> simp

/-- C7 witness: a concrete stopped client ignores a value change, and the
same client while running forwards it to `set`. -/
theorem C7_value_change_routing_witness :
    (on_value_change { initState with running := false } "cooling" 2 =
      ([], { initState with running := false })) ∧
    (on_value_change initState "cooling" 2 =
      ([ServerCall.set [("cooling", 2)]], initState)) :=
  ⟨(C7_value_change_routing { initState with running := false } "cooling" 2).1
      (by decide),
   (C7_value_change_routing initState "cooling" 2).2 (by decide)⟩

/-- C2.  The quit sequence (a click on the `quit` button, routed through
`on_click` to `quit`) is idempotent: from a running client, the first
invocation issues exactly one `do("quit")` and leaves RunState Stopped; a
second invocation issues no server call at all and RunState stays
Stopped. -/
theorem C2_quit_idempotent (s : NotebookState)
    (h : runState s = RunState.Running) :
    (on_click s "quit").1 = [ServerCall.doCmd "quit"] ∧
    runState (on_click s "quit").2 = RunState.Stopped ∧
    on_click (on_click s "quit").2 "quit" = ([], (on_click s "quit").2) := by
  have hr : s.running = true := by
    unfold runState at h
    cases hs : s.running
    · rw [hs] at h; simp at h
    · rfl
  unfold on_click quit runState
  simp [hr]

/-- C2 witness: the quit sequence applied twice to a concrete running
client. -/
theorem C2_quit_idempotent_witness :
    (on_click initState "quit").1 = [ServerCall.doCmd "quit"] ∧
    runState (on_click initState "quit").2 = RunState.Stopped ∧
    on_click (on_click initState "quit").2 "quit" =
      ([], (on_click initState "quit").2) :=
  C2_quit_idempotent initState (by decide)

/-- C3.  A pointer-down at display coordinates `(x, y)` on a display of
width `W` and height `H` sets `_mouse_down` to true and forwards the
finger-position control values `finger_x = x / W` and
`finger_y = 1 - y / H` (vertical axis inverted) to the server through the
registered value observers; the hypotheses state the session is running and
the assigned values actually change the widgets (traitlets only notify on a
change). -/
theorem C3_mouse_down_forwards (s : NotebookState) (x y : ℚ)
    (hrun : s.running = true)
    (hx : s.fingerX ≠ x / s.densityWidth)
    (hy : s.fingerY ≠ 1 - y / s.densityHeight) :
    (_handle_mouse_down s x y).state.mouseDown = true ∧
    (_handle_mouse_down s x y).state.fingerX = x / s.densityWidth ∧
    (_handle_mouse_down s x y).state.fingerY = 1 - y / s.densityHeight ∧
    (_handle_mouse_down s x y).calls =
      [ServerCall.set [("finger_x", x / s.densityWidth)],
       ServerCall.set [("finger_y", 1 - y / s.densityHeight)]] := by
  unfold _handle_mouse_down _set_finger setFingerWidgetX setFingerWidgetY
    on_value_change
  simp [hrun, hx, hy, resolvesInSetFinger, setFingerLocals,
    notebookModuleGlobals, pythonBuiltins]

/-- C3 witness: Scenario C of the spec — pointer-down at `(100, 50)` on the
500×300 display of `initState` yields `finger_x = 1/5 = 0.2` and
`finger_y = 1 - 50/300 = 5/6 ≈ 0.833`, both forwarded to `set`. -/
theorem C3_mouse_down_forwards_witness :
    (_handle_mouse_down initState 100 50).state.mouseDown = true ∧
    (_handle_mouse_down initState 100 50).state.fingerX = 1 / 5 ∧
    (_handle_mouse_down initState 100 50).state.fingerY = 5 / 6 ∧
    (_handle_mouse_down initState 100 50).calls =
      [ServerCall.set [("finger_x", 1 / 5)],
       ServerCall.set [("finger_y", 5 / 6)]] := by
  have h := C3_mouse_down_forwards initState 100 50 (by rfl)
    (by norm_num [initState]) (by norm_num [initState])
  obtain ⟨h1, h2, h3, h4⟩ := h
  refine ⟨h1, ?_, ?_, ?_⟩
  · rw [h2]; norm_num [initState]
  · rw [h3]; norm_num [initState]
  · rw [h4]; norm_num [initState]

/-- C4.  No call to `_set_finger` ever completes normally: after assigning
the `finger_x` and `finger_y` widget values it raises `NameError`, because
line 162 evaluates the bare names `finger_x` and `finger_y`, which are bound
in no enclosing scope of `notebook.py`; consequently every pointer-down
(`_handle_mouse_down`) and every pointer-move with the pointer down also
raises. -/
theorem C4_set_finger_always_raises (s : NotebookState) (x y : ℚ) :
    (_set_finger s x y).err = some (PyError.nameError "finger_x") ∧
    (_set_finger s x y).state.fingerX = x / s.densityWidth ∧
    (_set_finger s x y).state.fingerY = 1 - y / s.densityHeight ∧
    (_handle_mouse_down s x y).err = some (PyError.nameError "finger_x") ∧
    (s.mouseDown = true →
      (_handle_mouse_move s x y).err = some (PyError.nameError "finger_x")) ∧
    resolvesInSetFinger "finger_x" = false ∧
    resolvesInSetFinger "finger_y" = false := by
  have hfx : resolvesInSetFinger "finger_x" = false := by decide
  have hfy : resolvesInSetFinger "finger_y" = false := by decide
  refine ⟨?_, ?_, ?_, ?_, ?_, hfx, hfy⟩
  · unfold _set_finger
    simp [hfx]
  · unfold _set_finger setFingerWidgetX setFingerWidgetY on_value_change
    by_cases h1 : s.fingerX = x / s.densityWidth <;>
      by_cases h2 : s.fingerY = 1 - y / s.densityHeight <;>
        cases hr : s.running <;> simp [h1, h2, hr, hfx]
  · unfold _set_finger setFingerWidgetX setFingerWidgetY on_value_change
    by_cases h1 : s.fingerX = x / s.densityWidth <;>
      by_cases h2 :
        ({ s with fingerX := x / s.densityWidth } : NotebookState).fingerY =
          1 - y / s.densityHeight <;>
        cases hr : s.running <;> simp_all [h1, h2, hr, hfx]
  · unfold _handle_mouse_down _set_finger
    simp [hfx]
  · intro hmd
    unfold _handle_mouse_move _set_finger
    simp [hmd, hfx]

/-- C8.  For every TargetRate value `v` (zero and negative values included),
the effective rate used for timing is `max(1, v)`: the Frame Synchronizer's
deadline is `tic + 1 / max(1, v)` (line 337 computes `max(v, 1)`, which is
the same), the self-driven poll count divides by `max(1, r)` (line 294), the
effective rate is at least 1 — in particular never zero, so neither division
is a division by zero — and it collapses to 1 for every rate at most 0. -/
theorem C8_effective_rate (tic v r poll : ℚ) :
    syncDeadline tic v = tic + 1 / max 1 v ∧
    pollCountSelfDriven r poll = ⌈1 / max 1 r / poll⌉ ∧
    1 ≤ max 1 v ∧ 0 < max 1 v ∧ max 1 v ≠ 0 ∧
    1 ≤ max 1 r ∧ 0 < max 1 r ∧ max 1 r ≠ 0 ∧
    (v ≤ 0 → max 1 v = 1 ∧ max v 1 = 1) := by
  have h1 : (1 : ℚ) ≤ max 1 v := le_max_left 1 v
  have h0 : (0 : ℚ) < max 1 v := lt_of_lt_of_le one_pos h1
  have h1r : (1 : ℚ) ≤ max 1 r := le_max_left 1 r
  have h0r : (0 : ℚ) < max 1 r := lt_of_lt_of_le one_pos h1r
  refine ⟨?_, rfl, h1, h0, ne_of_gt h0, h1r, h0r, ne_of_gt h0r, ?_⟩
  · unfold syncDeadline
    rw [max_comm]
  · intro hv
    have hlt : v ≤ (1 : ℚ) := le_trans hv zero_le_one
    exact ⟨max_eq_left hlt, max_eq_right hlt⟩

/-- C8 witness: at TargetRate 0 the sync deadline is `tic + 1/1` and the
effective rate is 1; at TargetRate `-3` the effective rate is likewise 1. -/
theorem C8_effective_rate_witness :
    syncDeadline 0 0 = 0 + 1 / max 1 (0 : ℚ) ∧
    max 1 (0 : ℚ) ≠ 0 ∧
    (max 1 (-3 : ℚ) = 1 ∧ max (-3 : ℚ) 1 = 1) :=
  ⟨(C8_effective_rate 0 0 (-3) (1 / 100)).1,
   (C8_effective_rate 0 0 (-3) (1 / 100)).2.2.2.2.1,
   (C8_effective_rate 0 (-3) (-3) (1 / 100)).2.2.2.2.2.2.2.2
     (by norm_num)⟩

/-- C9.  The Update Cycle `update_frame` is a no-op — no server call, no
widget or state mutation at all — whenever RunState is Stopped or no Frame
Rate Limiter is active (`self._fps` is falsy), and in every case it leaves
RunState untouched: its side effects are confined to the display buffer, the
frame counter and the message label. -/
theorem C9_update_frame_guard (rgbaOf : DensityFrame → Image)
    (fpsStr : Nat → String) (resp : Except PyError DensityFrame)
    (s : NotebookState) :
    ((s.fpsActive = false ∨ s.running = false) →
      update_frame rgbaOf fpsStr resp s =
        { state := s, calls := [], err := none }) ∧
    (update_frame rgbaOf fpsStr resp s).state.running = s.running ∧
    (update_frame rgbaOf fpsStr resp s).state.mouseDown = s.mouseDown ∧
    (update_frame rgbaOf fpsStr resp s).state.fingerX = s.fingerX ∧
    (update_frame rgbaOf fpsStr resp s).state.fingerY = s.fingerY := by
  unfold update_frame
  constructor
  · rintro (h | h) <;> simp [h]
  · cases hf : s.fpsActive <;> cases hr : s.running <;>
      cases resp <;> simp [hf, hr]

/-- C9 witness: with the limiter active but the client stopped, a concrete
`update_frame` call is a no-op and in particular leaves RunState Stopped. -/
theorem C9_update_frame_guard_witness :
    update_frame id (fun _ => "") (Except.ok [[1]])
        { initState with running := false, fpsActive := true } =
      { state := { initState with running := false, fpsActive := true },
        calls := [], err := none } :=
  (C9_update_frame_guard id (fun _ => "") (Except.ok [[1]])
      { initState with running := false, fpsActive := true }).1
    (Or.inr rfl)

/-- Helper: `update_frame` never changes `self._running` (shared by the
loop lemmas below). -/
theorem update_frame_preserves_running (rgbaOf : DensityFrame → Image)
    (fpsStr : Nat → String) (resp : Except PyError DensityFrame)
    (t : NotebookState) :
    (update_frame rgbaOf fpsStr resp t).state.running = t.running := by
  unfold update_frame
  cases hf : t.fpsActive <;> cases hr : t.running <;> cases resp <;>
    simp [hf, hr]

/-- Helper: `update_frame` never changes the limiter truthiness flag. -/
theorem update_frame_preserves_fpsActive (rgbaOf : DensityFrame → Image)
    (fpsStr : Nat → String) (resp : Except PyError DensityFrame)
    (t : NotebookState) :
    (update_frame rgbaOf fpsStr resp t).state.fpsActive = t.fpsActive := by
  unfold update_frame
  cases hf : t.fpsActive <;> cases hr : t.running <;> cases resp <;>
    simp [hf, hr]

/-- Helper: when the server answers every `get_array` with a frame,
`update_frame` completes without raising. -/
theorem update_frame_ok_no_err (rgbaOf : DensityFrame → Image)
    (fpsStr : Nat → String) (df : DensityFrame) (t : NotebookState) :
    (update_frame rgbaOf fpsStr (Except.ok df) t).err = none := by
  unfold update_frame
  cases hf : t.fpsActive <;> cases hr : t.running <;> simp [hf, hr]

/-- Helper: a client whose RunState is Stopped makes the self-driven loop
break immediately: no invocation, no server call. -/
theorem selfDrivenLoop_stopped (step : Nat → NotebookState → StepResult)
    (l : List Nat) (k : Nat) (t : NotebookState) (h : t.running = false) :
    selfDrivenLoop step l k t =
      { state := t, invocations := 0, calls := [], err := none } := by
  cases l <;> simp [selfDrivenLoop, h]

/-- Helper: when every step completes without raising and preserves
`_running`, the loop performs one invocation per limiter tick. -/
theorem selfDrivenLoop_all_ok (step : Nat → NotebookState → StepResult)
    (hstep : ∀ k t, (step k t).err = none ∧
      (step k t).state.running = t.running) :
    ∀ (l : List Nat) (k : Nat) (s : NotebookState), s.running = true →
      (selfDrivenLoop step l k s).invocations = l.length ∧
      (selfDrivenLoop step l k s).state.running = true ∧
      (selfDrivenLoop step l k s).err = none := by
  intro l
  induction l with
  | nil => intro k s hs; simp [selfDrivenLoop, hs]
  | cons f rest ih =>
    intro k s hs
    obtain ⟨he, hr⟩ := hstep k s
    have ih' := ih (k + 1) (step k s).state (by rw [hr]; exact hs)
    simp only [selfDrivenLoop, hs, he]
    simp [ih'.1, ih'.2.1, ih'.2.2]

/-- C10.  With frame budget `F` and unlimited timeout, a self-driven session
(no fatal error: the server answers every `get_array`; no external stop)
performs exactly `F` Update Cycle invocations and then stops: RunState ends
Stopped with no raised error.  Moreover the loop exits as soon as RunState
becomes Stopped: from a stopped state it performs zero invocations (and the
limiter running dry ends the iteration by construction of its index
sequence). -/
theorem C10_self_driven_exact_budget (rgbaOf : DensityFrame → Image)
    (fpsStr : Nat → String) (d : Nat → DensityFrame) (F : Nat)
    (s : NotebookState) (hs : s.running = true) :
    (run_self_driven (stepOf rgbaOf fpsStr (fun k => Except.ok (d k))) F
        s).invocations = F ∧
    (run_self_driven (stepOf rgbaOf fpsStr (fun k => Except.ok (d k))) F
        s).err = none ∧
    runState (run_self_driven (stepOf rgbaOf fpsStr
        (fun k => Except.ok (d k))) F s).state = RunState.Stopped ∧
    (∀ (l : List Nat) (k : Nat) (t : NotebookState), t.running = false →
      selfDrivenLoop (stepOf rgbaOf fpsStr (fun k => Except.ok (d k))) l k t =
        { state := t, invocations := 0, calls := [], err := none }) := by
  have hstep : ∀ k t,
      ((stepOf rgbaOf fpsStr (fun k => Except.ok (d k))) k t).err = none ∧
      ((stepOf rgbaOf fpsStr (fun k => Except.ok (d k))) k t).state.running =
        t.running := by
    intro k t
    exact ⟨update_frame_ok_no_err rgbaOf fpsStr (d k) t,
      update_frame_preserves_running rgbaOf fpsStr (Except.ok (d k)) t⟩
  obtain ⟨hinv, hrun, herr⟩ := selfDrivenLoop_all_ok _ hstep
    (fpsIndicesUnlimited F) 0 { s with fpsActive := true } (by simpa using hs)
  simp only [fpsIndicesUnlimited, List.length_range] at hinv hrun herr
  refine ⟨?_, ?_, ?_, fun l k t ht => selfDrivenLoop_stopped _ l k t ht⟩ <;>
    simp [run_self_driven, fpsIndicesUnlimited, herr, hrun, hinv, runState]

/-- C10 witness: a concrete session with a budget of 3 frames performs
exactly 3 Update Cycle invocations, ends Stopped without error, and a
stopped client performs none. -/
theorem C10_self_driven_exact_budget_witness :
    (run_self_driven (stepOf id (fun _ => "")
        (fun _ => Except.ok [[0]])) 3 initState).invocations = 3 ∧
    (run_self_driven (stepOf id (fun _ => "")
        (fun _ => Except.ok [[0]])) 3 initState).err = none ∧
    runState (run_self_driven (stepOf id (fun _ => "")
        (fun _ => Except.ok [[0]])) 3 initState).state = RunState.Stopped ∧
    (∀ (l : List Nat) (k : Nat) (t : NotebookState), t.running = false →
      selfDrivenLoop (stepOf id (fun _ => "")
          (fun _ => Except.ok [[0]])) l k t =
        { state := t, invocations := 0, calls := [], err := none }) :=
  C10_self_driven_exact_budget id (fun _ => "") (fun _ => [[0]]) 3 initState
    rfl

/-- Helper: if the server answers calls `k, ..., k + n - 1` with frames and
raises on call `k + n`, then from a running state with an active limiter the
self-driven loop (with at least `n + 1` limiter ticks left) makes exactly
`n + 1` invocations, renders exactly `n` frames, issues exactly `n + 1`
`get_array` calls and nothing else, and the error escapes with `_running`
still true. -/
theorem selfDrivenLoop_err_at (rgbaOf : DensityFrame → Image)
    (fpsStr : Nat → String) (d : Nat → DensityFrame) (e : PyError) :
    ∀ (n : Nat) (l : List Nat) (k : Nat) (s : NotebookState),
      s.running = true → s.fpsActive = true → n < l.length →
      (selfDrivenLoop (stepOf rgbaOf fpsStr (respErrAt d e (k + n))) l k
          s).invocations = n + 1 ∧
      (selfDrivenLoop (stepOf rgbaOf fpsStr (respErrAt d e (k + n))) l k
          s).state.running = true ∧
      (selfDrivenLoop (stepOf rgbaOf fpsStr (respErrAt d e (k + n))) l k
          s).state.fpsFrame = s.fpsFrame + n ∧
      (selfDrivenLoop (stepOf rgbaOf fpsStr (respErrAt d e (k + n))) l k
          s).calls = List.replicate (n + 1) (ServerCall.getArray "density") ∧
      (selfDrivenLoop (stepOf rgbaOf fpsStr (respErrAt d e (k + n))) l k
          s).err = some e := by
  intro n
  induction n with
  | zero =>
    intro l k s hs hf hl
    cases l with
    | nil => simp at hl
    | cons f rest =>
      have hresp : respErrAt d e k k = Except.error e := by
        simp [respErrAt]
      simp [selfDrivenLoop, stepOf, update_frame, hs, hf, hresp]
  | succ n ih =>
    intro l k s hs hf hl
    cases l with
    | nil => simp at hl
    | cons f rest =>
      have hresp : respErrAt d e (k + (n + 1)) k = Except.ok (d k) := by
        simp only [respErrAt]
        rw [if_neg (by omega)]
      have hk : k + (n + 1) = (k + 1) + n := by omega
      have hstep : stepOf rgbaOf fpsStr (respErrAt d e (k + (n + 1))) k s =
          update_frame rgbaOf fpsStr (Except.ok (d k)) s := by
        simp [stepOf, hresp]
      have hguard : (!s.fpsActive || !s.running) = false := by
        simp [hs, hf]
      have hupd : update_frame rgbaOf fpsStr (Except.ok (d k)) s =
          { state :=
              { s with rgba := some (rgbaOf (d k)),
                       fpsFrame := s.fpsFrame + 1,
                       msg := fpsStr (s.fpsFrame + 1) ++ "fps" },
            calls := [ServerCall.getArray "density"], err := none } := by
        unfold update_frame
        rw [hguard]
        simp
      have ih' := ih rest (k + 1)
          { s with rgba := some (rgbaOf (d k)),
                   fpsFrame := s.fpsFrame + 1,
                   msg := fpsStr (s.fpsFrame + 1) ++ "fps" }
          (by simpa using hs) (by simpa using hf)
          (by simpa using Nat.lt_of_succ_lt_succ hl)
      rw [hk] at hstep ⊢
      simp only [selfDrivenLoop]
      rw [if_neg (by simp [hs]), hstep, hupd]
      simp [ih'.1, ih'.2.1, ih'.2.2.1, ih'.2.2.2.1, ih'.2.2.2.2,
        List.replicate_succ]
      omega

/-- C1 counterexample, Scenario B: a frame budget of 100 (any budget above 3
behaves identically; the source default is 10000), where the server answers
the first two `get_array` calls and raises a connection error on the 3rd.  Exactly 2 frames were rendered and the loop
stops after the 3rd call — that much of the claim holds — but the session's
server calls are exactly the three `get_array` calls: no `do("quit")` is
ever attempted, and RunState is still `Running` when the error escapes
`run`, contradicting the claim that a best-effort `do("quit")` is issued
and RunState transitions to `Stopped`.  The cleanup `self._fps = None; if
self._running: self.quit()` (source lines 297-299) sits after the `with`
block with no `try/finally`, so the escaping exception skips it. -/
theorem C1_counterexample_scenarioB :
    (run_self_driven (stepOf id (fun _ => "")
        (respErrAt (fun _ => [[0]]) PyError.connectionError 2)) 100
        initState).invocations = 3 ∧
    (run_self_driven (stepOf id (fun _ => "")
        (respErrAt (fun _ => [[0]]) PyError.connectionError 2)) 100
        initState).state.fpsFrame = 2 ∧
    (run_self_driven (stepOf id (fun _ => "")
        (respErrAt (fun _ => [[0]]) PyError.connectionError 2)) 100
        initState).err = some PyError.connectionError ∧
    (run_self_driven (stepOf id (fun _ => "")
        (respErrAt (fun _ => [[0]]) PyError.connectionError 2)) 100
        initState).calls =
      [ServerCall.getArray "density", ServerCall.getArray "density",
       ServerCall.getArray "density"] ∧
    runState (run_self_driven (stepOf id (fun _ => "")
        (respErrAt (fun _ => [[0]]) PyError.connectionError 2)) 100
        initState).state = RunState.Running := by
  refine ⟨?_, ?_, ?_, ?_, ?_⟩ <;> rfl

/-- C1 (amended).  When a `get_array` call raises a connection error during
an Update Cycle of a self-driven session (the error on the `(n+1)`-th call,
within the frame budget), the failure propagates out of the Update Cycle and
out of `run`, and the frame loop stops issuing further ticks — with the
error on the 3rd call, exactly 2 frames were rendered.  However, on this
exceptional path `do("quit")` is never issued (the session's server traffic
is exactly the `get_array` calls) and RunState remains `Running`: the quit
sequence runs only on non-exceptional loop exit. -/
theorem C1_connection_failure_path (rgbaOf : DensityFrame → Image)
    (fpsStr : Nat → String) (d : Nat → DensityFrame) (e : PyError)
    (n F : Nat) (s : NotebookState) (hs : s.running = true) (hF : n < F) :
    (run_self_driven (stepOf rgbaOf fpsStr (respErrAt d e n)) F s).err =
      some e ∧
    (run_self_driven (stepOf rgbaOf fpsStr (respErrAt d e n)) F
        s).invocations = n + 1 ∧
    (run_self_driven (stepOf rgbaOf fpsStr (respErrAt d e n)) F
        s).state.fpsFrame = s.fpsFrame + n ∧
    (run_self_driven (stepOf rgbaOf fpsStr (respErrAt d e n)) F s).calls =
      List.replicate (n + 1) (ServerCall.getArray "density") ∧
    (run_self_driven (stepOf rgbaOf fpsStr (respErrAt d e n)) F
        s).state.running = true := by
  have h := selfDrivenLoop_err_at rgbaOf fpsStr d e n (fpsIndicesUnlimited F)
    0 { s with fpsActive := true } (by simpa using hs) rfl
    (by simpa [fpsIndicesUnlimited] using hF)
  simp only [Nat.zero_add] at h
  obtain ⟨hinv, hrun, hframe, hcalls, herr⟩ := h
  refine ⟨?_, ?_, ?_, ?_, ?_⟩ <;>
    simp [run_self_driven, herr, hinv, hrun, hframe, hcalls]

/-- C1 amended-claim witness: the concrete Scenario B instance (error on
the 3rd call, budget 5) obtained from the general theorem. -/
theorem C1_connection_failure_path_witness :
    (run_self_driven (stepOf id (fun _ => "")
        (respErrAt (fun _ => [[0]]) PyError.connectionError 2)) 5
        initState).err = some PyError.connectionError ∧
    (run_self_driven (stepOf id (fun _ => "")
        (respErrAt (fun _ => [[0]]) PyError.connectionError 2)) 5
        initState).invocations = 2 + 1 ∧
    (run_self_driven (stepOf id (fun _ => "")
        (respErrAt (fun _ => [[0]]) PyError.connectionError 2)) 5
        initState).state.fpsFrame = initState.fpsFrame + 2 ∧
    (run_self_driven (stepOf id (fun _ => "")
        (respErrAt (fun _ => [[0]]) PyError.connectionError 2)) 5
        initState).calls =
      List.replicate (2 + 1) (ServerCall.getArray "density") ∧
    (run_self_driven (stepOf id (fun _ => "")
        (respErrAt (fun _ => [[0]]) PyError.connectionError 2)) 5
        initState).state.running = true :=
  C1_connection_failure_path id (fun _ => "") (fun _ => [[0]])
    PyError.connectionError 2 5 initState rfl (by decide)


/-- Helper: whatever trace the pacing while-loop of `sync` produces (within
its unfolding bound) has the shape described by `PaceSteps`: it repeatedly
yields one scheduler tick and sleeps `min(poll, deadline - now)` whenever
that is positive, until the re-read clock passes the deadline. -/
theorem paceWhile_paceSteps (tc poll : ℚ) (clock : Nat → ℚ) :
    ∀ (fuel : Nat) (tok : ℚ) (i : Nat) (evs : List Ev) (j : Nat),
      paceWhile tc poll clock fuel tok i = some (evs, j) →
      PaceSteps tc poll clock tok i evs := by
  intro fuel
  induction fuel with
  | zero => intro tok i evs j h; simp [paceWhile] at h
  | succ fuel ih =>
    intro tok i evs j h
    by_cases hlt : tok < tc
    · rw [paceWhile, if_pos hlt] at h
      cases hrec : paceWhile tc poll clock fuel (clock (i + 1)) (i + 2) with
      | none => rw [hrec] at h; simp at h
      | some p =>
        rw [hrec] at h
        simp only [Option.some.injEq, Prod.mk.injEq] at h
        by_cases hdt : 0 < min poll (tc - clock i)
        · rw [if_pos hdt] at h
          rw [← h.1]
          exact PaceSteps.stepSleep tok i p.1 hlt hdt (ih _ _ _ p.2 hrec)
        · rw [if_neg hdt] at h
          rw [← h.1]
          exact PaceSteps.stepNoSleep tok i p.1 hlt hdt (ih _ _ _ p.2 hrec)
    · rw [paceWhile, if_neg hlt] at h
      simp only [Option.some.injEq, Prod.mk.injEq] at h
      rw [← h.1]
      exact PaceSteps.exit tok i hlt

/-- C5.  The exit actions of the Frame Synchronizer scope (`sync`) run to
completion even when the wrapped Update Cycle body raises: with identical
clock readings, the event trace appended after the body's events is the
same whether the body raised or completed (and the raised error still
propagates); that exit trace starts with one cooperative-scheduler tick and
then follows the pacing shape `PaceSteps` — the deadline is
`tic + 1 / effective_rate` (`syncDeadline`), and until the deadline each
iteration yields one scheduler tick and sleeps
`min(scheduler_poll_interval, deadline - now)` whenever that duration is
positive. -/
theorem C5_sync_exit_always_runs (v poll : ℚ) (clock : Nat → ℚ)
    (fuel i : Nat) (bodyEvs : List Ev) (e : PyError) (evs : List Ev)
    (j : Nat) (h : syncFinally (clock 0) v poll clock i fuel = some (evs, j)) :
    sync v poll clock fuel bodyEvs (some e) i =
      some (bodyEvs ++ evs, some e) ∧
    sync v poll clock fuel bodyEvs none i = some (bodyEvs ++ evs, none) ∧
    ∃ pace, evs = Ev.doOneIteration :: pace ∧
      PaceSteps (syncDeadline (clock 0) v) poll clock (clock i) (i + 1)
        pace := by
  refine ⟨by simp [sync, h], by simp [sync, h], ?_⟩
  simp only [syncFinally] at h
  cases hp : paceWhile (syncDeadline (clock 0) v) poll clock fuel (clock i)
      (i + 1) with
  | none => rw [hp] at h; exact absurd h (by simp)
  | some p =>
    rw [hp] at h
    simp only [Option.some.injEq, Prod.mk.injEq] at h
    exact ⟨p.1, h.1.symm,
      paceWhile_paceSteps _ _ _ _ _ _ _ p.2 hp⟩

/-- C5 witness: a concrete schedule in which the pacing loop runs one
iteration with a positive sleep and then finds the deadline passed; the
trace is identical for a raising body and a completing body. -/
theorem C5_sync_exit_always_runs_witness :
    sync 1 (1 / 4) qclock 3 [] (some PyError.connectionError) 1 =
      some ([Ev.doOneIteration, Ev.doOneIteration, Ev.sleep (1 / 4)],
        some PyError.connectionError) ∧
    sync 1 (1 / 4) qclock 3 [] none 1 =
      some ([Ev.doOneIteration, Ev.doOneIteration, Ev.sleep (1 / 4)],
        none) ∧
    ∃ pace,
      [Ev.doOneIteration, Ev.doOneIteration, Ev.sleep (1 / 4)] =
        Ev.doOneIteration :: pace ∧
      PaceSteps (syncDeadline (qclock 0) 1) (1 / 4) qclock (qclock 1) 2
        pace := by
  have h : syncFinally (qclock 0) 1 (1 / 4) qclock 1 3 =
      some ([Ev.doOneIteration, Ev.doOneIteration, Ev.sleep (1 / 4)], 4) := by
    norm_num [syncFinally, paceWhile, syncDeadline, qclock, min_def]
  have hmain := C5_sync_exit_always_runs 1 (1 / 4) qclock 3 1 []
    PyError.connectionError _ 4 h
  simpa using hmain

/-- C4 witness: at a concrete state with the pointer held down, both
`_set_finger` and a pointer-move raise the `NameError`. -/
theorem C4_set_finger_always_raises_witness :
    (_set_finger { initState with mouseDown := true } 100 50).err =
      some (PyError.nameError "finger_x") ∧
    (_handle_mouse_move { initState with mouseDown := true } 100 50).err =
      some (PyError.nameError "finger_x") :=
  ⟨(C4_set_finger_always_raises { initState with mouseDown := true }
      100 50).1,
   (C4_set_finger_always_raises { initState with mouseDown := true }
      100 50).2.2.2.2.1 rfl⟩
